import Mathlib

/-!
Verification of `src/100-Challeges/p26.c` ("Arrays and Matrices").

The C program declares `int arr[5] = {1,2,3,4,5}` and
`int matrix[3][3] = {{1,2,3},{4,5,6},{7,8,9}}`, prints a header line, the
array elements in a loop with `printf("%d ", ...)`, a newline, a second
header, and the matrix in nested loops (newline after every row), then
returns 0.

We embed the program shallowly: standard output is modelled as the list of
strings passed to the successive `printf` calls (the write trace), and the
whole stdout byte sequence is their concatenation.  The loops `for (i = 0;
i < n; i++)` become left folds over `List.range n`.  A second, fallible
embedding performs every array read through `List.get?` so that an
out-of-bounds access would surface as `none`.
-/

namespace P26

/-- Line 5 of p26.c: `int arr[5] = {1, 2, 3, 4, 5};` -/
def arr : List Int := [1, 2, 3, 4, 5]

/-- Lines 6-8 of p26.c: `int matrix[3][3] = {{1,2,3},{4,5,6},{7,8,9}};` -/
def matrix : List (List Int) := [[1, 2, 3], [4, 5, 6], [7, 8, 9]]

/-- One `printf("%d ", x)` call: the decimal rendering of `x` followed by a
single space. -/
def fmtElem (x : Int) : String := toString x ++ " "

/-- Lines 11-14 of p26.c: the loop `for (i = 0; i < 5; i++) printf("%d ",
arr[i]);` followed by `printf("\n");`, as the list of writes it performs. -/
def printSequence : List String :=
  (List.range 5).foldl (fun ws i => ws ++ [fmtElem (arr.getD i 0)]) [] ++ ["\n"]

/-- Lines 17-22 of p26.c: the nested loops over rows and columns, with a
newline printed after each row, as the list of writes performed. -/
def printGrid : List String :=
  (List.range 3).foldl
    (fun ws i =>
      (List.range 3).foldl
        (fun ws2 j => ws2 ++ [fmtElem ((matrix.getD i []).getD j 0)]) ws
      ++ ["\n"])
    []

/-- Result of one program execution: the write trace and the exit status. -/
structure RunResult where
  writes : List String
  exitCode : Int
  deriving DecidableEq

/-- Lines 10-24 of p26.c: both header prints, the two printing phases, and
`return 0;`. -/
def run : RunResult :=
  { writes := ["Array elements:\n"] ++ printSequence
      ++ ["Matrix elements:\n"] ++ printGrid
    exitCode := 0 }

/-- The whole process: `main` has the signature `int main()`, so the
command-line arguments are ignored entirely. -/
def program (_args : List String) : RunResult := run

/-- The bytes the process writes to standard output. -/
def stdout (args : List String) : String := String.join (program args).writes

/-- A bounds-checked read of `arr[i]`: `none` when `i` is out of range. -/
def readSeq (i : Nat) : Option Int := arr.get? i

/-- A bounds-checked read of `matrix[r][c]`: `none` when either index is out
of range. -/
def readGrid (r c : Nat) : Option Int :=
  (matrix.get? r).bind fun row => row.get? c

/-- The sequence-printing loop with every element access bounds-checked. -/
def printSequenceChecked : Option (List String) := do
  let ws ← (List.range 5).foldlM
    (fun ws i => do
      let x ← readSeq i
      pure (ws ++ [fmtElem x]))
    []
  pure (ws ++ ["\n"])

/-- The grid-printing loops with every element access bounds-checked. -/
def printGridChecked : Option (List String) := do
  (List.range 3).foldlM
    (fun ws i => do
      let row ← (List.range 3).foldlM
        (fun ws2 j => do
          let x ← readGrid i j
          pure (ws2 ++ [fmtElem x]))
        ws
      pure (row ++ ["\n"]))
    []

/-- The whole run with every container access bounds-checked: `none` exactly
when some access during execution would be out of bounds. -/
def runChecked : Option RunResult := do
  let s ← printSequenceChecked
  let g ← printGridChecked
  pure { writes := ["Array elements:\n"] ++ s ++ ["Matrix elements:\n"] ++ g
         exitCode := 0 }

end P26

namespace P26

/-- C1: running the program with no arguments writes to standard output
exactly the byte sequence `"Array elements:\n1 2 3 4 5 \nMatrix
elements:\n1 2 3 \n4 5 6 \n7 8 9 \n"`; every numeric line ends with a
trailing space before its newline and the header lines have none. -/
theorem stdout_exact :
    stdout [] =
      "Array elements:\n1 2 3 4 5 \nMatrix elements:\n1 2 3 \n4 5 6 \n7 8 9 \n" := by
  decide

/-- C2: every element of the fixed 5-element Sequence at index `i < 5`
equals `i + 1`. -/
theorem arr_elem : ∀ i : Nat, i < 5 → arr.getD i 0 = (i : Int) + 1 := by
  decide

/-- Witness for C2: instantiated at index 2. -/
theorem arr_elem_witness : arr.getD 2 0 = (2 : Int) + 1 :=
  arr_elem 2 (by decide)

/-- C3: every element of the fixed 3×3 Grid at row `r < 3`, column `c < 3`
equals `r * 3 + c + 1`. -/
theorem matrix_elem :
    ∀ r : Nat, r < 3 → ∀ c : Nat, c < 3 →
      (matrix.getD r []).getD c 0 = (r : Int) * 3 + (c : Int) + 1 := by
  decide

/-- Witness for C3: instantiated at row 1, column 2. -/
theorem matrix_elem_witness :
    (matrix.getD 1 []).getD 2 0 = (1 : Int) * 3 + (2 : Int) + 1 :=
  matrix_elem 1 (by decide) 2 (by decide)

/-- C4: on every execution, whatever the arguments, the program exits with
status 0; there is no path returning a non-zero status. -/
theorem exit_always_zero : ∀ args : List String, (program args).exitCode = 0 :=
  fun _ => rfl

/-- C5: the sequence-printing phase performs exactly one write per index, in
order 0,1,2,3,4, each write being that element followed by a single space,
then one final newline; joined, the bytes are `"1 2 3 4 5 \n"`. -/
theorem printSequence_spec :
    printSequence
        = (List.range 5).map (fun i => toString (arr.getD i 0) ++ " ") ++ ["\n"]
      ∧ String.join printSequence = "1 2 3 4 5 \n" := by
  exact ⟨by decide, by decide⟩

/-- C6: the grid-printing phase visits rows 0..2 outer-to-inner and, within
each row, columns 0..2, writing each value followed by a single space and a
newline after each row; joined, the bytes are `"1 2 3 \n4 5 6 \n7 8 9 \n"`. -/
theorem printGrid_spec :
    printGrid
        = List.flatten ((List.range 3).map (fun r =>
            (List.range 3).map
              (fun c => toString ((matrix.getD r []).getD c 0) ++ " ")
            ++ ["\n"]))
      ∧ String.join printGrid = "1 2 3 \n4 5 6 \n7 8 9 \n" := by
  exact ⟨by decide, by decide⟩

/-- C7: the program is deterministic: any two invocations, with any argument
lists, produce identical write traces and identical exit status. -/
theorem program_deterministic :
    ∀ a b : List String, program a = program b :=
  fun _ _ => rfl

/-- C8: every container access during execution is in bounds: each Sequence
index used lies below `arr.length`, each Grid row/column pair lies within
the grid dimensions, and the fully bounds-checked run succeeds and coincides
with the actual run. -/
theorem accesses_in_bounds :
    (∀ i : Nat, i < 5 → i < arr.length)
      ∧ (∀ r : Nat, r < 3 → ∀ c : Nat, c < 3 →
          r < matrix.length ∧ c < (matrix.getD r []).length)
      ∧ runChecked = some run := by
  refine ⟨by decide, by decide, by decide⟩

/-- Witness for C8: instantiated at Sequence index 4 and Grid cell (2,2). -/
theorem accesses_in_bounds_witness :
    (4 < arr.length ∧ (2 < matrix.length ∧ 2 < (matrix.getD 2 []).length))
      ∧ runChecked = some run :=
  ⟨⟨accesses_in_bounds.1 4 (by decide),
    accesses_in_bounds.2.1 2 (by decide) 2 (by decide)⟩,
   accesses_in_bounds.2.2⟩

/-- C9: the whole program is a bounded sequence of writes: the Sequence loop
performs exactly 5 element writes (6 writes with its newline), the Grid
loops perform exactly 3×3 element writes (12 with the row newlines), and the
complete run is exactly 20 writes. -/
theorem run_bounded :
    printSequence.length = 5 + 1
      ∧ printGrid.length = 3 * (3 + 1)
      ∧ run.writes.length = 20 := by
  refine ⟨by decide, by decide, by decide⟩

/-- C10: the Grid's first row coincides with the first three elements of the
Sequence: for every `j < 3`, `arr[j] = matrix[0][j]`. -/
theorem first_row_matches_sequence :
    ∀ j : Nat, j < 3 → arr.getD j 0 = (matrix.getD 0 []).getD j 0 := by
  decide

/-- Witness for C10: instantiated at column 1. -/
theorem first_row_matches_sequence_witness :
    arr.getD 1 0 = (matrix.getD 0 []).getD 1 0 :=
  first_row_matches_sequence 1 (by decide)

end P26
